import Mathlib

/-!
Shallow embedding of the `cp` reimplementation (Rust sources under src/) and
proofs about its specified behaviour.  Each definition mirrors one Rust item;
the mirrored file and function are named in its doc comment.  Syscall results
(stat, open, read, rename, ...) are supplied through explicit environment
records, so every function here is a pure, executable model of the
corresponding Rust control flow.
-/

namespace Cp

/-- Mirrors cli.rs `ReflinkMode`. -/
inductive ReflinkMode
  | always
  | auto
  | never
deriving DecidableEq, Repr

/-- Mirrors cli.rs `SparseMode`. -/
inductive SparseMode
  | always
  | auto
  | never
deriving DecidableEq, Repr

/-- Mirrors cli.rs `UpdateMode` (`older`, `all`, `none`, `none-fail`). -/
inductive UpdateMode
  | older
  | all
  | none
  | noneFail
deriving DecidableEq, Repr

/-- Mirrors options.rs `Dereference`. -/
inductive Dereference
  | never
  | commandLine
  | always
deriving DecidableEq, Repr

/-- Mirrors options.rs `BackupMode`. -/
inductive BackupMode
  | none
  | numbered
  | existing
  | simple
deriving DecidableEq, Repr

/-- A filesystem path, modelled as an absolute-flag plus the list of
components (the model of Rust `PathBuf` used throughout). -/
structure FsPath where
  abs : Bool
  comps : List String
deriving DecidableEq, Repr

/-- Mirrors cli.rs `Cli`: the parsed command line (only the fields read by
`CopyOptions::from_cli` and the orchestrator). -/
structure Cli where
  archive : Bool
  attributes_only : Bool
  backup : Option String
  simple_backup : Bool
  copy_contents : Bool
  no_deref_preserve_links : Bool
  debug : Bool
  force : Bool
  interactive : Bool
  dereference_args : Bool
  hard_link : Bool
  dereference : Bool
  no_clobber : Bool
  no_dereference : Bool
  preserve_default : Bool
  preserve : Option (List String)
  no_preserve : Option (List String)
  parents : Bool
  recursive : Bool
  reflink : Option ReflinkMode
  remove_destination : Bool
  sparse : Option SparseMode
  strip_trailing_slashes : Bool
  symbolic_link : Bool
  suffix : Option String
  target_directory : Option FsPath
  no_target_directory : Bool
  update : Option UpdateMode
  progress : Bool
  verbose : Bool
  one_file_system : Bool
deriving DecidableEq, Repr

/-- Mirrors options.rs `CopyOptions`. -/
structure CopyOptions where
  recursive : Bool
  force : Bool
  interactive : Bool
  no_clobber : Bool
  verbose : Bool
  debug : Bool
  progress : Bool
  hard_link : Bool
  symbolic_link : Bool
  attributes_only : Bool
  remove_destination : Bool
  strip_trailing_slashes : Bool
  one_file_system : Bool
  parents : Bool
  no_target_directory : Bool
  target_directory : Option FsPath
  dereference : Dereference
  preserve_mode : Bool
  preserve_ownership : Bool
  preserve_timestamps : Bool
  preserve_links : Bool
  preserve_xattr : Bool
  preserve_acl : Bool
  reflink : ReflinkMode
  sparse : SparseMode
  update : Option UpdateMode
  backup : BackupMode
  backup_suffix : String
deriving DecidableEq, Repr

/-- Environment variables read by options.rs (`SIMPLE_BACKUP_SUFFIX`,
`VERSION_CONTROL`). -/
structure EnvVars where
  simple_backup_suffix : Option String
  version_control : Option String
deriving DecidableEq, Repr

/-- The six preservation flags accumulated by `from_cli`. -/
structure PFlags where
  mode : Bool
  ownership : Bool
  timestamps : Bool
  links : Bool
  xattrs : Bool
  acl : Bool
deriving DecidableEq, Repr

/-- Mirrors the `--preserve` attribute loop in options.rs `from_cli`
(lines 97-120); the `context`/`all` bookkeeping variables that Rust keeps in
`_preserve_context`/`_preserve_all` are write-only there and dropped here. -/
def applyPreserve (p : PFlags) (attr : String) : PFlags :=
  match attr with
  | "mode" => { p with mode := true }
  | "ownership" => { p with ownership := true }
  | "timestamps" => { p with timestamps := true }
  | "links" => { p with links := true }
  | "xattr" => { p with xattrs := true }
  | "acl" => { p with acl := true }
  | "all" =>
    { mode := true, ownership := true, timestamps := true, links := true,
      xattrs := true, acl := true }
  | _ => p

/-- Mirrors the `--no-preserve` attribute loop in options.rs `from_cli`
(lines 122-145). -/
def applyNoPreserve (p : PFlags) (attr : String) : PFlags :=
  match attr with
  | "mode" => { p with mode := false }
  | "ownership" => { p with ownership := false }
  | "timestamps" => { p with timestamps := false }
  | "links" => { p with links := false }
  | "xattr" => { p with xattrs := false }
  | "acl" => { p with acl := false }
  | "all" =>
    { mode := false, ownership := false, timestamps := false, links := false,
      xattrs := false, acl := false }
  | _ => p

/-- Mirrors options.rs `parse_backup_control`. -/
def parse_backup_control (s : String) : BackupMode :=
  match s with
  | "none" => BackupMode.none
  | "off" => BackupMode.none
  | "numbered" => BackupMode.numbered
  | "t" => BackupMode.numbered
  | "existing" => BackupMode.existing
  | "nil" => BackupMode.existing
  | "simple" => BackupMode.simple
  | "never" => BackupMode.simple
  | _ => BackupMode.existing

/-- Mirrors options.rs `resolve_backup`. -/
def resolve_backup (envv : EnvVars) (cli : Cli) : BackupMode :=
  match cli.backup with
  | some ctrl => parse_backup_control ctrl
  | Option.none =>
    if cli.simple_backup then
      match envv.version_control with
      | some vc => parse_backup_control vc
      | Option.none => BackupMode.simple
    else BackupMode.none

/-- Mirrors options.rs `CopyOptions::from_cli` (lines 69-191).  Note line
165: `no_clobber: cli.no_clobber && !cli.interactive`. -/
def from_cli (envv : EnvVars) (cli : Cli) : CopyOptions :=
  let debug := cli.debug
  let verbose := cli.verbose || debug
  let dereference :=
    if cli.dereference then Dereference.always
    else if cli.no_dereference || cli.no_deref_preserve_links then Dereference.never
    else if cli.dereference_args then Dereference.commandLine
    else if cli.recursive then Dereference.never
    else Dereference.commandLine
  let archive := cli.archive
  let p0 : PFlags :=
    { mode := archive || cli.preserve_default
      ownership := archive || cli.preserve_default
      timestamps := archive || cli.preserve_default
      links := archive || cli.no_deref_preserve_links
      xattrs := archive
      acl := false }
  let p1 := match cli.preserve with
    | some attrs => attrs.foldl applyPreserve p0
    | Option.none => p0
  let p2 := match cli.no_preserve with
    | some attrs => attrs.foldl applyNoPreserve p1
    | Option.none => p1
  { recursive := cli.recursive || archive
    force := cli.force
    interactive := cli.interactive
    no_clobber := cli.no_clobber && !cli.interactive
    verbose := verbose
    debug := debug
    progress := cli.progress
    hard_link := cli.hard_link
    symbolic_link := cli.symbolic_link
    attributes_only := cli.attributes_only
    remove_destination := cli.remove_destination
    strip_trailing_slashes := cli.strip_trailing_slashes
    one_file_system := cli.one_file_system
    parents := cli.parents
    no_target_directory := cli.no_target_directory
    target_directory := cli.target_directory
    dereference := dereference
    preserve_mode := p2.mode
    preserve_ownership := p2.ownership
    preserve_timestamps := p2.timestamps
    preserve_links := p2.links
    preserve_xattr := p2.xattrs
    preserve_acl := p2.acl
    reflink := cli.reflink.getD ReflinkMode.auto
    sparse := cli.sparse.getD SparseMode.auto
    update := cli.update
    backup := resolve_backup envv cli
    backup_suffix := (cli.suffix.orElse (fun _ => envv.simple_backup_suffix)).getD "~" }

/-- Mirrors error.rs `CpError`; `std::io::Error` payloads are dropped,
path payloads kept. -/
inductive CpError
  | stat (path : FsPath)
  | openRead (path : FsPath)
  | createFile (path : FsPath)
  | createDir (path : FsPath)
  | readErr (path : FsPath)
  | writeErr (path : FsPath)
  | sameFile (src dst : FsPath)
  | copyIntoSelf (path dest : FsPath)
  | omitDirectory (path : FsPath)
  | missingDestination (src : String)
  | missingOperand
  | notADirectory (path : FsPath)
  | copyErr (src dst : FsPath) (reason : String)
  | chown (path : FsPath)
  | chmod (path : FsPath)
  | timestamps (path : FsPath)
  | xattrErr (path : FsPath)
  | aclErr (path : FsPath) (msg : String)
  | symlinkErr (dst : FsPath)
  | hardLinkErr (src dst : FsPath)
  | mkNod (path : FsPath)
  | readLinkErr (path : FsPath)
  | danglingSymlink (path : FsPath)
  | removeErr (path : FsPath)
  | seekErr (path : FsPath)
deriving DecidableEq, Repr

/-- Mirrors util.rs `should_follow_symlink`. -/
def should_follow_symlink (deref : Dereference) (is_command_line_arg : Bool) : Bool :=
  match deref with
  | Dereference.always => true
  | Dereference.never => false
  | Dereference.commandLine => is_command_line_arg

/-- Model of Rust `Path::join`: an absolute right operand replaces the left. -/
def FsPath.join (base p : FsPath) : FsPath :=
  if p.abs then p else { abs := base.abs, comps := base.comps ++ p.comps }

/-- Mirrors util.rs `build_dest_path`.  `file_name()` is modelled as the last
component (Rust additionally returns `None` on a trailing `..`, a case no
claim touches). -/
def build_dest_path (source dest : FsPath) (dest_is_dir parents : Bool) : FsPath :=
  if dest_is_dir then
    if parents then
      FsPath.join dest { abs := false, comps := source.comps }
    else
      match source.comps.getLast? with
      | some nm => FsPath.join dest { abs := false, comps := [nm] }
      | Option.none => FsPath.join dest source
  else dest

/-- Model of Rust `Path::starts_with`: `p` starts with `base` when `base` is a
component-wise prefix (ancestor-or-equal). -/
def pathStartsWith (p base : FsPath) : Bool :=
  p.abs = base.abs && base.comps.isPrefixOf p.comps

/-- Mirrors backup.rs `make_backup` (lines 5-35).  `bpath` is the backup name
chosen by the simple/numbered/existing policy of backup.rs (pure directory
probing, not under any claim); `destExists` is `dest.exists()`, `renameOk`
the outcome of `fs::rename`.  Returns the backup path iff a backup was made:
in particular `Option.none` whenever the rename fails. -/
def make_backup (bpath : FsPath) (mode : BackupMode) (destExists renameOk : Bool) :
    Option FsPath :=
  if mode = BackupMode.none || !destExists then Option.none
  else if renameOk then some bpath
  else Option.none

/-- Mirrors copy.rs `is_simple_opts`. -/
def is_simple_opts (o : CopyOptions) : Bool :=
  !o.interactive && !o.no_clobber && !o.remove_destination && o.update.isNone
    && decide (o.backup = BackupMode.none) && !o.hard_link && !o.symbolic_link
    && !o.attributes_only

/-! ## Metadata propagation (metadata.rs) -/

/-- One stage of the metadata pipeline of metadata.rs `preserve_metadata`,
plus the mode-restore write that follows ACL application. -/
inductive MStage
  | xattrs
  | ownership
  | modeStage
  | timestampsStage
  | acl
  | modeRestore
deriving DecidableEq, Repr

/-- Per-invocation environment for `preserve_metadata`: the two process-wide
capability flags, the cached privilege check, the mode read back from the
destination for the ACL save/restore, and each leaf helper's outcome
(`Option.none` = success).  The leaf helpers (`preserve_xattr`,
`preserve_ownership`, ...) are syscall wrappers whose classified outcome is
what `preserve_metadata` consumes. -/
structure MetaEnv where
  xattrSupported : Bool
  aclSupported : Bool
  isRoot : Bool
  savedMode : Option Nat
  xattrRes : Option CpError
  chownRes : Option CpError
  chmodRes : Option CpError
  timeRes : Option CpError
  aclRes : Option CpError
deriving Repr

/-- Runs a gated pipeline of stages in order, stopping at the first stage
whose body errors; returns the executed stages and the final outcome. -/
def runPipeline : List (Bool × MStage × Option CpError) → List MStage × Option CpError
  | [] => ([], Option.none)
  | (g, st, r) :: rest =>
    if g then
      match r with
      | some e => ([st], some e)
      | Option.none =>
        let (tr, res) := runPipeline rest
        (st :: tr, res)
    else runPipeline rest

/-- Mirrors metadata.rs `preserve_metadata` (lines 29-77): the fixed pipeline
xattr, ownership (root only), mode (non-symlink only), timestamps, ACL, with
the saved-mode restore after ACL when mode is not being preserved.  Returns
the executed stages in execution order and the propagated error, if any. -/
def preserve_metadata (env : MetaEnv) (o : CopyOptions) (is_symlink : Bool) :
    List MStage × Option CpError :=
  runPipeline
    [ (o.preserve_xattr && env.xattrSupported, MStage.xattrs, env.xattrRes),
      (o.preserve_ownership && env.isRoot, MStage.ownership, env.chownRes),
      (o.preserve_mode && !is_symlink, MStage.modeStage, env.chmodRes),
      (o.preserve_timestamps, MStage.timestampsStage, env.timeRes),
      (o.preserve_acl && env.aclSupported, MStage.acl, env.aclRes),
      (o.preserve_acl && env.aclSupported && !o.preserve_mode && !is_symlink
         && env.savedMode.isSome, MStage.modeRestore, Option.none) ]

/-! ## Copy engine (engine.rs) -/

/-- engine.rs `COPY_FILE_RANGE_CHUNK` / `SENDFILE_CHUNK` (64 MiB). -/
def ENGINE_CHUNK : Nat := 64 * 1024 * 1024

/-- engine.rs `FICLONE_THRESHOLD` (256 KiB). -/
def FICLONE_THRESHOLD : Nat := 256 * 1024

/-- The data-transfer method tag returned by engine.rs `copy_file_data`
(the Rust strings "reflink (FICLONE)", "copy_file_range", ...). -/
inductive MethodTag
  | reflink
  | copyFileRange
  | cfrSendfile
  | cfrReadWrite
  | sendfile
  | readWrite
deriving DecidableEq, Repr

/-- One cascade step attempted by `copy_file_data`. -/
inductive EngineStep
  | clone
  | cfr
  | sendfile
  | rw
deriving DecidableEq, Repr

/-- Syscall outcomes consumed by the engine cascade: whether the FICLONE
ioctl succeeds, and the return-value sequences of the `copy_file_range`,
`sendfile64`, and `read` loops (a negative entry is a failing syscall, zero
is EOF; for `read`, `Option.none` is an I/O error). -/
structure EngineEnv where
  ficloneOk : Bool
  cfrRets : List Int
  sendRets : List Int
  readRets : List (Option Nat)
  writeOks : List Bool
deriving Repr

/-- Mirrors engine.rs `try_copy_file_range` (lines 94-133): loop while
`copied < size`; a negative return gives `Err` only when nothing was copied
yet (both errno branches break identically), zero terminates (EOF), positive
returns accumulate.  An exhausted return list models the loop breaking.
`Option.none` is Rust `Err(())`. -/
def try_copy_file_range (size : Nat) : List Int → Nat → Option Nat
  | [], copied => some copied
  | r :: rest, copied =>
    if size ≤ copied then some copied
    else if r < 0 then (if copied = 0 then Option.none else some copied)
    else if r = 0 then some copied
    else try_copy_file_range size rest (copied + r.toNat)

/-- Mirrors engine.rs `try_sendfile` (lines 136-164): loop while
`remaining > 0`; any negative return is `Err` (false), zero breaks, positive
returns reduce the remainder. -/
def try_sendfile : List Int → Nat → Bool
  | _, 0 => true
  | [], _ + 1 => true
  | r :: rest, rem + 1 =>
    if r < 0 then false
    else if r = 0 then true
    else try_sendfile rest (rem + 1 - r.toNat)

/-- Mirrors engine.rs `do_read_write` (lines 167-194): read/write loop; a
read error surfaces as `CpError::Read`, a failed `write_all` as
`CpError::Write`, a zero-byte read terminates. -/
def do_read_write (srcP dstP : FsPath) :
    List (Option Nat) → List Bool → Option CpError
  | [], _ => Option.none
  | Option.none :: _, _ => some (CpError.readErr srcP)
  | some 0 :: _, _ => Option.none
  | some (_ + 1) :: rest, ws =>
    match ws with
    | [] => do_read_write srcP dstP rest []
    | w :: wrest =>
      if w then do_read_write srcP dstP rest wrest
      else some (CpError.writeErr dstP)

/-- Steps 2-4 of engine.rs `copy_file_data` (lines 62-85): the
`copy_file_range` loop, then `sendfile`, then the user-space fallback, with
the partial-progress chaining of the Rust `match` arms.  Returns the steps
attempted and the outcome. -/
def cascadeFrom2 (env : EngineEnv) (size : Nat) (srcP dstP : FsPath) :
    List EngineStep × Except CpError MethodTag :=
  let step34 : List EngineStep × Except CpError MethodTag :=
    if try_sendfile env.sendRets size then
      ([EngineStep.cfr, EngineStep.sendfile], Except.ok MethodTag.sendfile)
    else
      match do_read_write srcP dstP env.readRets env.writeOks with
      | Option.none =>
        ([EngineStep.cfr, EngineStep.sendfile, EngineStep.rw],
         Except.ok MethodTag.readWrite)
      | some e =>
        ([EngineStep.cfr, EngineStep.sendfile, EngineStep.rw], Except.error e)
  match try_copy_file_range size env.cfrRets 0 with
  | some copied =>
    if copied = size then ([EngineStep.cfr], Except.ok MethodTag.copyFileRange)
    else if 0 < copied then
      if try_sendfile env.sendRets (size - copied) then
        ([EngineStep.cfr, EngineStep.sendfile], Except.ok MethodTag.cfrSendfile)
      else
        match do_read_write srcP dstP env.readRets env.writeOks with
        | Option.none =>
          ([EngineStep.cfr, EngineStep.sendfile, EngineStep.rw],
           Except.ok MethodTag.cfrReadWrite)
        | some e =>
          ([EngineStep.cfr, EngineStep.sendfile, EngineStep.rw], Except.error e)
    else step34
  | Option.none => step34

/-- Mirrors engine.rs `copy_file_data` (lines 29-85).  Step 1 attempts the
FICLONE ioctl exactly when `reflink = Always`, or `reflink = Auto` and
`size ≥ FICLONE_THRESHOLD`; on clone failure with `Always` it raises a
non-recoverable `CpError::Copy`, with `Auto` it falls through to
`cascadeFrom2`. -/
def copy_file_data (env : EngineEnv) (size : Nat) (srcP dstP : FsPath)
    (reflink : ReflinkMode) : List EngineStep × Except CpError MethodTag :=
  let try_reflink :=
    match reflink with
    | ReflinkMode.never => false
    | ReflinkMode.always => true
    | ReflinkMode.auto => decide (FICLONE_THRESHOLD ≤ size)
  if try_reflink then
    if env.ficloneOk then ([EngineStep.clone], Except.ok MethodTag.reflink)
    else if reflink = ReflinkMode.always then
      ([EngineStep.clone],
       Except.error (CpError.copyErr srcP dstP
         "failed to clone: Operation not supported"))
    else
      let (steps, res) := cascadeFrom2 env size srcP dstP
      (EngineStep.clone :: steps, res)
  else cascadeFrom2 env size srcP dstP

/-! ## Sparse subsystem (sparse.rs) -/

/-- sparse.rs `BUF_SIZE` (256 KiB). -/
def BUF_SIZE : Nat := 256 * 1024

/-- Mirrors sparse.rs `DataRegion`: a contiguous non-hole extent. -/
structure DataRegion where
  offset : Nat
  length : Nat
deriving DecidableEq, Repr

/-- Observable actions of the sparse copy path. -/
inductive SpEv
  | setLen (n : Nat)
  | seekSrc (off : Nat)
  | seekDst (off : Nat)
  | writeChunk (n : Nat)
  | progress (n : Nat)
deriving DecidableEq, Repr

/-- Syscall outcomes consumed by `copy_sparse`: the region list produced by
the SEEK_DATA/SEEK_HOLE scan (`scan_sparse_regions`, which always returns
`Some` in the Rust source), the per-region `read` results for the Auto copy
loop (`Option.none` = read error), whether `set_len` and the writes succeed,
and the `read` results of the Always zero-detection loop (each a byte
buffer). -/
structure SparseEnv where
  regions : List DataRegion
  regionReads : List (List (Option Nat))
  setLenOk : Bool
  writeOk : Bool
  alwaysReads : List (Option (List Nat))
deriving Repr

/-- The per-region read/write loop of sparse.rs `copy_sparse` Auto mode
(lines 68-84): repeatedly read up to `min remaining BUF_SIZE`, stop on a
zero-byte read, write each buffer, count progress.  Returns the events and
the bytes written.  A read never returns more than requested. -/
def regionLoop (srcP dstP : FsPath) (writeOk : Bool) :
    List (Option Nat) → Nat → Except CpError (List SpEv × Nat)
  | _, 0 => Except.ok ([], 0)
  | [], _ + 1 => Except.ok ([], 0)
  | Option.none :: _, _ + 1 => Except.error (CpError.readErr srcP)
  | some n :: rest, rem + 1 =>
    let to_read := min (rem + 1) BUF_SIZE
    let k := min n to_read
    if k = 0 then Except.ok ([], 0)
    else if !writeOk then Except.error (CpError.writeErr dstP)
    else
      match regionLoop srcP dstP writeOk rest (rem + 1 - k) with
      | Except.error e => Except.error e
      | Except.ok (evs, w) =>
        Except.ok (SpEv.writeChunk k :: SpEv.progress k :: evs, k + w)

/-- One region of the Auto path: seek both descriptors to the region offset,
then run the copy loop for `region.length` bytes. -/
def copyOneRegion (srcP dstP : FsPath) (writeOk : Bool) (r : DataRegion)
    (reads : List (Option Nat)) : Except CpError (List SpEv × Nat) :=
  match regionLoop srcP dstP writeOk reads r.length with
  | Except.error e => Except.error e
  | Except.ok (evs, w) =>
    Except.ok (SpEv.seekSrc r.offset :: SpEv.seekDst r.offset :: evs, w)

/-- Iterates `copyOneRegion` over the scanned regions, pairing each with its
read results; returns all events and the list of per-region byte counts. -/
def copyAllRegions (srcP dstP : FsPath) (writeOk : Bool) :
    List DataRegion → List (List (Option Nat)) →
    Except CpError (List SpEv × List Nat)
  | [], _ => Except.ok ([], [])
  | r :: rs, reads =>
    match copyOneRegion srcP dstP writeOk r (reads.headD []) with
    | Except.error e => Except.error e
    | Except.ok (evs, w) =>
      match copyAllRegions srcP dstP writeOk rs reads.tail with
      | Except.error e => Except.error e
      | Except.ok (evs2, ws) => Except.ok (evs ++ evs2, w :: ws)

/-- The zero-detection loop of sparse.rs `copy_sparse_by_zero_detection`
(lines 161-189): stream the source; an all-zero buffer is skipped (hole),
otherwise seek to the buffer's offset and write. -/
def zeroDetectLoop (srcP dstP : FsPath) (writeOk : Bool) :
    List (Option (List Nat)) → Nat → Except CpError (List SpEv)
  | [], _ => Except.ok []
  | Option.none :: _, _ => Except.error (CpError.readErr srcP)
  | some buf :: rest, offset =>
    let n := buf.length
    if n = 0 then Except.ok []
    else
      let is_zero := buf.all (fun b => b = 0)
      if is_zero then
        match zeroDetectLoop srcP dstP writeOk rest (offset + n) with
        | Except.error e => Except.error e
        | Except.ok evs => Except.ok (SpEv.progress n :: evs)
      else if !writeOk then Except.error (CpError.writeErr dstP)
      else
        match zeroDetectLoop srcP dstP writeOk rest (offset + n) with
        | Except.error e => Except.error e
        | Except.ok evs =>
          Except.ok (SpEv.seekDst offset :: SpEv.writeChunk n ::
            SpEv.progress n :: evs)

/-- Sum of the scanned data-region lengths (`data_bytes` in sparse.rs). -/
def dataBytes (regions : List DataRegion) : Nat :=
  (regions.map DataRegion.length).sum

/-- Mirrors sparse.rs `copy_sparse` (lines 20-98).  Never always declines;
Always pre-extends and runs zero detection; Auto declines when the scan
yields no region (the wildcard arm of the Rust `match`) or no hole
(`data_bytes >= size`), and otherwise pre-extends the destination, copies
each region at its offset, and counts the hole bytes as progress.  The
boolean result is whether the sparse path handled the copy. -/
def copy_sparse (env : SparseEnv) (size : Nat) (srcP dstP : FsPath)
    (mode : SparseMode) : Except CpError (Bool × List SpEv) :=
  match mode with
  | SparseMode.never => Except.ok (false, [])
  | SparseMode.always =>
    if !env.setLenOk then Except.error (CpError.writeErr dstP)
    else
      match zeroDetectLoop srcP dstP env.writeOk env.alwaysReads 0 with
      | Except.error e => Except.error e
      | Except.ok evs => Except.ok (true, SpEv.setLen size :: evs)
  | SparseMode.auto =>
    match env.regions with
    | [] => Except.ok (false, [])
    | r :: rs =>
      let regions := r :: rs
      if size ≤ dataBytes regions then Except.ok (false, [])
      else if !env.setLenOk then Except.error (CpError.writeErr dstP)
      else
        match copyAllRegions srcP dstP env.writeOk regions env.regionReads with
        | Except.error e => Except.error e
        | Except.ok (evs, _) =>
          let holeEvs :=
            if dataBytes regions < size then
              [SpEv.progress (size - dataBytes regions)]
            else []
          Except.ok (true, SpEv.setLen size :: (evs ++ holeEvs))

/-! ## Single-file driver (copy.rs) -/

/-- copy.rs `SPARSE_THRESHOLD` (32 KiB). -/
def SPARSE_THRESHOLD : Nat := 32 * 1024

/-- The unix file type of a stat result. -/
inductive FType
  | regular
  | symlink
  | directory
  | fifo
  | block
  | char
  | socket
  | other
deriving DecidableEq, Repr

/-- Source metadata as consumed by copy.rs (`fs::Metadata`): file type, byte
length, and `modified().ok()`. -/
structure Meta where
  ftype : FType
  size : Nat
  mtime : Option Nat
deriving DecidableEq, Repr

/-- Destination metadata (`fs::symlink_metadata(dst)`), as consumed by
`copy_single`. -/
structure DstMeta where
  is_symlink : Bool
  mtime : Option Nat
deriving DecidableEq, Repr

/-- Rust derived `Ord` on `Option<SystemTime>`: `None` is smaller than any
`Some`.  `optTimeLe a b` is `a <= b`. -/
def optTimeLe : Option Nat → Option Nat → Bool
  | Option.none, _ => true
  | some _, Option.none => false
  | some a, some b => decide (a ≤ b)

/-- Observable actions of the single-file driver, in execution order. -/
inductive Ev
  | prompt
  | backupCall
  | removeDst
  | hardLinkCreate
  | symLinkCreate
  | createEmpty
  | sparseCall
  | engineCall
  | preserveMeta
  | symlinkRecreate
  | fifoCreate
  | devCreate
  | socketWarn
deriving DecidableEq, Repr

/-- Syscall outcomes consumed by `copy_regular_file` and its helpers. -/
structure RegEnv where
  dstExists : Bool
  dstExistsAny : Bool
  createOk : Bool
  removeOk : Bool
  linkOk : Bool
  openSrcOk : Bool
  createDstOk : Bool
  createRetryOk : Bool
  openSrcOk2 : Bool
  createDstOk2 : Bool
  createRetryOk2 : Bool
  sp : SparseEnv
  eng : EngineEnv
  meta : MetaEnv
deriving Repr

/-- Mirrors copy.rs `open_dest_create` (lines 221-236): create+truncate in
one syscall, with one unlink-and-retry under `force`. -/
def open_dest_create (createOk retryOk force : Bool) (dstP : FsPath) :
    Option CpError :=
  if createOk then Option.none
  else if force then
    (if retryOk then Option.none else some (CpError.createFile dstP))
  else some (CpError.createFile dstP)

/-- Mirrors copy.rs `do_hard_link` (lines 298-311). -/
def do_hard_link (env : RegEnv) (srcP dstP : FsPath) :
    List Ev × Option CpError :=
  if env.dstExists && !env.removeOk then ([], some (CpError.removeErr dstP))
  else if env.linkOk then ([Ev.hardLinkCreate], Option.none)
  else ([], some (CpError.hardLinkErr srcP dstP))

/-- Mirrors copy.rs `do_symbolic_link` (lines 313-330). -/
def do_symbolic_link (env : RegEnv) (dstP : FsPath) :
    List Ev × Option CpError :=
  if env.dstExistsAny && !env.removeOk then ([], some (CpError.removeErr dstP))
  else if env.linkOk then ([Ev.symLinkCreate], Option.none)
  else ([], some (CpError.symlinkErr dstP))

/-- Mirrors copy.rs `copy_regular_file` (lines 140-217): link modes,
attributes-only, open source, create destination, the sparse-mode gate
(`sparse != Never && size >= SPARSE_THRESHOLD`, inside `size > 0`), the
reopen-and-fall-through when sparse declines, the engine cascade, and the
final metadata propagation.  Returns the executed actions and the error, if
any. -/
def copy_regular_file (env : RegEnv) (m : Meta) (o : CopyOptions)
    (srcP dstP : FsPath) : List Ev × Option CpError :=
  if o.hard_link then do_hard_link env srcP dstP
  else if o.symbolic_link then do_symbolic_link env dstP
  else if o.attributes_only then
    if !env.dstExists && !env.createOk then ([], some (CpError.createFile dstP))
    else
      let created := if !env.dstExists then [Ev.createEmpty] else []
      (created ++ [Ev.preserveMeta], (preserve_metadata env.meta o false).2)
  else
    let size := m.size
    if !env.openSrcOk then ([], some (CpError.openRead srcP))
    else
      match open_dest_create env.createDstOk env.createRetryOk o.force dstP with
      | some e => ([], some e)
      | Option.none =>
        if 0 < size then
          let use_sparse :=
            decide (o.sparse ≠ SparseMode.never) && decide (SPARSE_THRESHOLD ≤ size)
          if use_sparse then
            match copy_sparse env.sp size srcP dstP o.sparse with
            | Except.error e => ([Ev.sparseCall], some e)
            | Except.ok (true, _) =>
              ([Ev.sparseCall, Ev.preserveMeta], (preserve_metadata env.meta o false).2)
            | Except.ok (false, _) =>
              if !env.openSrcOk2 then ([Ev.sparseCall], some (CpError.openRead srcP))
              else
                match open_dest_create env.createDstOk2 env.createRetryOk2 o.force dstP with
                | some e => ([Ev.sparseCall], some e)
                | Option.none =>
                  match (copy_file_data env.eng size srcP dstP o.reflink).2 with
                  | Except.error e => ([Ev.sparseCall, Ev.engineCall], some e)
                  | Except.ok _ =>
                    ([Ev.sparseCall, Ev.engineCall, Ev.preserveMeta],
                     (preserve_metadata env.meta o false).2)
          else
            match (copy_file_data env.eng size srcP dstP o.reflink).2 with
            | Except.error e => ([Ev.engineCall], some e)
            | Except.ok _ =>
              ([Ev.engineCall, Ev.preserveMeta],
               (preserve_metadata env.meta o false).2)
        else ([Ev.preserveMeta], (preserve_metadata env.meta o false).2)

/-- Syscall outcomes consumed by `copy_single`: the two stat flavours on the
source, the cached symlink-stat of the destination, `dst.exists()`, the
same-file test, the prompt answer, and the outcomes of the helper
operations. -/
structure SingleEnv where
  srcMetaF : Option Meta
  srcMetaL : Option Meta
  dstMeta : Option DstMeta
  dstExistsFollow : Bool
  sameFile : Bool
  promptYes : Bool
  backupDestExists : Bool
  backupPath : FsPath
  renameOk : Bool
  removeDestOk : Bool
  srcIsDirFollow : Bool
  srcIsFileFollow : Bool
  readLinkOk : Bool
  symlinkRemoveOk : Bool
  symlinkCreateOk : Bool
  mkfifoOk : Bool
  mknodOk : Bool
  reg : RegEnv
deriving Repr

/-- Mirrors copy.rs `copy_symlink` (lines 238-264). -/
def copy_symlink (env : SingleEnv) (o : CopyOptions) (srcP dstP : FsPath) :
    List Ev × Option CpError :=
  if !env.readLinkOk then ([], some (CpError.readLinkErr srcP))
  else if env.reg.dstExistsAny && !env.symlinkRemoveOk then
    ([], some (CpError.removeErr dstP))
  else if !env.symlinkCreateOk then ([], some (CpError.symlinkErr dstP))
  else
    ([Ev.symlinkRecreate, Ev.preserveMeta],
     (preserve_metadata env.reg.meta o true).2)

/-- Mirrors copy.rs `copy_fifo` (lines 266-276). -/
def copy_fifo (env : SingleEnv) (o : CopyOptions) (dstP : FsPath) :
    List Ev × Option CpError :=
  if !env.mkfifoOk then ([], some (CpError.mkNod dstP))
  else ([Ev.fifoCreate, Ev.preserveMeta], (preserve_metadata env.reg.meta o false).2)

/-- Mirrors copy.rs `copy_device` (lines 278-296). -/
def copy_device (env : SingleEnv) (o : CopyOptions) (dstP : FsPath) :
    List Ev × Option CpError :=
  if !env.mknodOk then ([], some (CpError.mkNod dstP))
  else ([Ev.devCreate, Ev.preserveMeta], (preserve_metadata env.reg.meta o false).2)

/-- The file-type dispatch of copy.rs `copy_single` (lines 113-131). -/
def dispatchByType (env : SingleEnv) (o : CopyOptions) (m : Meta)
    (follow : Bool) (srcP dstP : FsPath) : List Ev × Option CpError :=
  if m.ftype = FType.symlink && !follow then copy_symlink env o srcP dstP
  else if m.ftype = FType.directory || (follow && env.srcIsDirFollow) then
    ([], some (CpError.omitDirectory srcP))
  else if m.ftype = FType.regular || (follow && env.srcIsFileFollow) then
    copy_regular_file env.reg m o srcP dstP
  else if m.ftype = FType.fifo then copy_fifo env o dstP
  else if m.ftype = FType.block || m.ftype = FType.char then copy_device env o dstP
  else if m.ftype = FType.socket then ([Ev.socketWarn], Option.none)
  else copy_regular_file env.reg m o srcP dstP

/-- Mirrors copy.rs `copy_single` (lines 33-138): stat per dereference
policy, the cached destination stat, the dangling-symlink refusal, the
same-file test, the update-mode skip, the no-clobber skip, the interactive
prompt, the discarded `make_backup` call, `--remove-destination`, then the
file-type dispatch.  A skip is `([], Option.none)` (success without data
transfer). -/
def copy_single (env : SingleEnv) (o : CopyOptions) (srcP dstP : FsPath)
    (is_cli_arg : Bool) : List Ev × Option CpError :=
  let follow := should_follow_symlink o.dereference is_cli_arg
  match (if follow then env.srcMetaF else env.srcMetaL) with
  | Option.none => ([], some (CpError.stat srcP))
  | some src_meta =>
    let dst_exists := env.dstMeta.isSome
    let dangling :=
      match env.dstMeta with
      | some dm =>
        dm.is_symlink && !env.dstExistsFollow && !o.force && !o.remove_destination
      | Option.none => false
    if dangling then ([], some (CpError.danglingSymlink dstP))
    else if dst_exists && env.sameFile then ([], some (CpError.sameFile srcP dstP))
    else
      let updateSkip :=
        match o.update with
        | some u =>
          dst_exists &&
          (match u with
           | UpdateMode.none => true
           | UpdateMode.noneFail => true
           | UpdateMode.older =>
             (match env.dstMeta with
              | some dm => optTimeLe src_meta.mtime dm.mtime
              | Option.none => false)
           | UpdateMode.all => false)
        | Option.none => false
      if updateSkip then ([], Option.none)
      else if o.no_clobber && dst_exists then ([], Option.none)
      else
        let pre1 : List Ev := if o.interactive && dst_exists then [Ev.prompt] else []
        if o.interactive && dst_exists && !env.promptYes then (pre1, Option.none)
        else
          let _discarded :=
            if dst_exists then
              make_backup env.backupPath o.backup env.backupDestExists env.renameOk
            else Option.none
          let pre2 := pre1 ++ (if dst_exists then [Ev.backupCall] else [])
          if o.remove_destination && dst_exists && !env.removeDestOk then
            (pre2, some (CpError.removeErr dstP))
          else
            let pre3 :=
              pre2 ++ (if o.remove_destination && dst_exists then [Ev.removeDst] else [])
            let dres := dispatchByType env o src_meta follow srcP dstP
            (pre3 ++ dres.1, dres.2)

/-! ## Directory walker (dir.rs) -/

/-- The hard-link ledger of dir.rs: a map from (st_dev, st_ino) to the first
destination path, modelled as an association list with most-recent insertion
in front (the model of the Rust `HashMap`). -/
abbrev Ledger := List ((Nat × Nat) × FsPath)

/-- Ledger lookup (Rust `HashMap::get`). -/
def lookupKey (k : Nat × Nat) : Ledger → Option FsPath
  | [] => Option.none
  | (k2, p) :: rest => if k2 = k then some p else lookupKey k rest

/-- One regular file met by the walker: the fstat fields the hard-link logic
reads plus the destination path it would materialize. -/
structure Encounter where
  dev : Nat
  ino : Nat
  nlink : Nat
  dst : FsPath
deriving DecidableEq, Repr

/-- The ledger key of an encounter. -/
def keyOf (e : Encounter) : Nat × Nat := (e.dev, e.ino)

/-- What a single file encounter turned into.  `dataCopy` is a real data
copy; `hardLinkTo first dst` is a hard link from `first` — created
immediately in `copy_file_openat` (dir.rs lines 429-451) and recorded in the
deferred-link list, then created after the workers join, in
`copy_file_openat_mt` (dir.rs lines 623-643). -/
inductive LinkAction
  | dataCopy (dst : FsPath)
  | hardLinkTo (first dst : FsPath)
deriving DecidableEq, Repr

/-- The ledger decision of dir.rs `copy_file_openat` (lines 429-451) and
`copy_file_openat_mt` (lines 623-643): for `st_nlink > 1`, look the key up
BEFORE inserting; on a hit the encounter becomes a hard link to the first
destination, on a miss the mapping is inserted and the encounter copies
data.  In the multi-threaded variant the lookup+insert runs under the ledger
mutex, so any interleaving is some serialization handled by `runLedger`. -/
def ledgerStep (m : Ledger) (e : Encounter) : Ledger × LinkAction :=
  if 1 < e.nlink then
    match lookupKey (keyOf e) m with
    | some first => (m, LinkAction.hardLinkTo first e.dst)
    | Option.none => ((keyOf e, e.dst) :: m, LinkAction.dataCopy e.dst)
  else (m, LinkAction.dataCopy e.dst)

/-- Folds `ledgerStep` over the encounters in (serialization) order,
returning the final ledger and the per-encounter actions. -/
def runLedger (m : Ledger) : List Encounter → Ledger × List LinkAction
  | [] => (m, [])
  | e :: rest =>
    let (m1, a) := ledgerStep m e
    let (m2, acts) := runLedger m1 rest
    (m2, a :: acts)

/-- Each encounter paired with the action it produced. -/
def annotate (m : Ledger) (es : List Encounter) : List (Encounter × LinkAction) :=
  es.zip (runLedger m es).2

/-- The deferred-link list built by `copy_files_parallel` (dir.rs lines
524-576): the `(original_path, my_destination)` pairs of the non-first
encounters, created as hard links in one sequential pass after the join. -/
def deferredOf (acts : List LinkAction) : List (FsPath × FsPath) :=
  acts.filterMap (fun a =>
    match a with
    | LinkAction.hardLinkTo f d => some (f, d)
    | LinkAction.dataCopy _ => Option.none)

/-- dir.rs `CFR_MAX` (1 GiB). -/
def CFR_MAX : Nat := 1024 * 1024 * 1024

/-- The byte count transferred by the `copy_file_range` loop of dir.rs
`copy_and_close` (lines 696-710): the loop body adds nothing and breaks on
the first return value ≤ 0, so the transferred bytes are the sum of the
maximal positive prefix of the return sequence. -/
def cfr_loop_bytes : List Int → Nat
  | [] => 0
  | r :: rest => if r ≤ 0 then 0 else r.toNat + cfr_loop_bytes rest

/-- The fd-based metadata syscalls issued at the end of `copy_and_close`. -/
inductive FdEv
  | fxattr
  | fchown
  | fchmod
  | futimens
  | facl
deriving DecidableEq, Repr

/-- Mirrors dir.rs `copy_and_close` (lines 689-754): loop `copy_file_range`
until a return ≤ 0 (no error check — an error return and EOF both just break
the loop), then the gated fd-based metadata calls (whose raw-libc results
are ignored), close both fds, and return `Ok(())` unconditionally.  Result:
(outcome, bytes transferred, metadata calls made). -/
def copy_and_close (rets : List Int) (need_file_meta hasStat : Bool)
    (o : CopyOptions) : Except CpError Unit × Nat × List FdEv :=
  let evs : List FdEv :=
    if need_file_meta && hasStat then
      (if o.preserve_xattr then [FdEv.fxattr] else []) ++
      (if o.preserve_ownership then [FdEv.fchown] else []) ++
      (if o.preserve_mode then [FdEv.fchmod] else []) ++
      (if o.preserve_timestamps then [FdEv.futimens] else []) ++
      (if o.preserve_acl then [FdEv.facl] else [])
    else []
  (Except.ok (), cfr_loop_bytes rets, evs)

/-- The entry of dir.rs `copy_directory` (lines 29-45): the raw-path
copy-into-self check, then the fast/slow path selection.  The boolean result
is whether the fast descriptor-relative path is taken. -/
def copy_directory_entry (srcP dstP : FsPath) (o : CopyOptions) :
    Except CpError Bool :=
  if pathStartsWith dstP srcP && decide (dstP ≠ srcP) then
    Except.error (CpError.copyIntoSelf srcP dstP)
  else
    Except.ok (is_simple_opts o && decide (o.dereference ≠ Dereference.always))

/-! ## Orchestrator (main.rs) -/

/-- Syscall outcomes consumed by `copy_source`: the source stats and the
result of `fs::canonicalize` on each path (`Option.none` = error, e.g. the
path does not exist). -/
structure MainEnv where
  srcMetaF : Option Meta
  srcMetaL : Option Meta
  canon : FsPath → Option FsPath

/-- What main.rs `copy_source` dispatched to. -/
inductive SourceOutcome
  | failed (e : CpError)
  | descend (target : FsPath)
  | singleFile (target : FsPath)
deriving DecidableEq, Repr

/-- Mirrors main.rs `copy_source` (lines 71-132) up to its dispatch: stat the
source (following per policy, command-line argument), refuse directories
without `recursive`, build the target path, and — for directories — fail
with `CopyIntoSelf` when both canonicalizations succeed and the canonical
target starts with the canonical source, BEFORE invoking
`dir::copy_directory` (the descent). -/
def copy_source (env : MainEnv) (source dest : FsPath) (dest_is_dir : Bool)
    (o : CopyOptions) : SourceOutcome :=
  let follow := should_follow_symlink o.dereference true
  match (if follow then env.srcMetaF else env.srcMetaL) with
  | Option.none => SourceOutcome.failed (CpError.stat source)
  | some m =>
    let is_dir := m.ftype = FType.directory
    if is_dir && !o.recursive then
      SourceOutcome.failed (CpError.omitDirectory source)
    else
      let target := build_dest_path source dest dest_is_dir o.parents
      if is_dir then
        match env.canon source, env.canon target with
        | some cs, some cd =>
          if pathStartsWith cd cs then
            SourceOutcome.failed (CpError.copyIntoSelf source target)
          else SourceOutcome.descend target
        | some _, Option.none => SourceOutcome.descend target
        | Option.none, _ => SourceOutcome.descend target
      else SourceOutcome.singleFile target

/-! ## Concrete fixtures used by witnesses and counterexamples -/

/-- A concrete source path. -/
def pSrc : FsPath := { abs := true, comps := ["home", "src"] }

/-- A concrete destination path. -/
def pDst : FsPath := { abs := true, comps := ["home", "dst"] }

/-- A concrete backup path. -/
def pBak : FsPath := { abs := true, comps := ["home", "dst~"] }

/-- A bare `cp SRC DST` invocation: every flag at its clap default. -/
def defaultCli : Cli :=
  { archive := false, attributes_only := false, backup := Option.none,
    simple_backup := false, copy_contents := false,
    no_deref_preserve_links := false, debug := false, force := false,
    interactive := false, dereference_args := false, hard_link := false,
    dereference := false, no_clobber := false, no_dereference := false,
    preserve_default := false, preserve := Option.none,
    no_preserve := Option.none, parents := false, recursive := false,
    reflink := Option.none, remove_destination := false,
    sparse := Option.none, strip_trailing_slashes := false,
    symbolic_link := false, suffix := Option.none,
    target_directory := Option.none, no_target_directory := false,
    update := Option.none, progress := false, verbose := false,
    one_file_system := false }

/-- No relevant environment variables set. -/
def envNone : EnvVars :=
  { simple_backup_suffix := Option.none, version_control := Option.none }

/-- The options a bare invocation resolves to. -/
def defaultOpts : CopyOptions := from_cli envNone defaultCli

/-- A metadata environment: filesystem supports everything, caller is not
root, every stage succeeds. -/
def defaultMetaEnv : MetaEnv :=
  { xattrSupported := true, aclSupported := true, isRoot := false,
    savedMode := Option.none, xattrRes := Option.none,
    chownRes := Option.none, chmodRes := Option.none,
    timeRes := Option.none, aclRes := Option.none }

/-- An engine environment where one `copy_file_range` call moves 100 bytes. -/
def defaultEngineEnv : EngineEnv :=
  { ficloneOk := true, cfrRets := [100], sendRets := [], readRets := [],
    writeOks := [] }

/-- A sparse environment with an empty region scan. -/
def defaultSparseEnv : SparseEnv :=
  { regions := [], regionReads := [], setLenOk := true, writeOk := true,
    alwaysReads := [] }

/-- A regular-file environment where every syscall succeeds. -/
def defaultRegEnv : RegEnv :=
  { dstExists := true, dstExistsAny := true, createOk := true,
    removeOk := true, linkOk := true, openSrcOk := true, createDstOk := true,
    createRetryOk := true, openSrcOk2 := true, createDstOk2 := true,
    createRetryOk2 := true, sp := defaultSparseEnv, eng := defaultEngineEnv,
    meta := defaultMetaEnv }

/-- A 100-byte regular source file with mtime 50. -/
def regMeta100 : Meta := { ftype := FType.regular, size := 100, mtime := some 50 }

/-- A single-file environment: the destination exists (a regular file with
mtime 40), nothing fails, the prompt is answered yes. -/
def defaultSingleEnv : SingleEnv :=
  { srcMetaF := some regMeta100, srcMetaL := some regMeta100,
    dstMeta := some { is_symlink := false, mtime := some 40 },
    dstExistsFollow := true, sameFile := false, promptYes := true,
    backupDestExists := true, backupPath := pBak, renameOk := true,
    removeDestOk := true, srcIsDirFollow := false, srcIsFileFollow := true,
    readLinkOk := true, symlinkRemoveOk := true, symlinkCreateOk := true,
    mkfifoOk := true, mknodOk := true, reg := defaultRegEnv }

/-! ## C2 — copy-into-self detection -/

/-- C2: for every src and dst where the canonicalized dst has the
canonicalized src as an ancestor or is equal to it, a recursive directory
copy fails with a copy-into-itself error before any descent into the tree —
`copy_source` returns `failed (CopyIntoSelf ..)` and never reaches the
`descend` outcome that invokes `dir::copy_directory`; the raw-path check at
the entry of `copy_directory` fails likewise. -/
theorem C2_copy_into_self
    (env : MainEnv) (source dest : FsPath) (dest_is_dir : Bool)
    (o : CopyOptions) (m : Meta) (cs cd : FsPath)
    (hm : (if should_follow_symlink o.dereference true then env.srcMetaF
           else env.srcMetaL) = some m)
    (hdir : m.ftype = FType.directory)
    (hrec : o.recursive = true)
    (hcs : env.canon source = some cs)
    (hcd : env.canon (build_dest_path source dest dest_is_dir o.parents) = some cd)
    (hpre : pathStartsWith cd cs = true) :
    copy_source env source dest dest_is_dir o =
      SourceOutcome.failed (CpError.copyIntoSelf source
        (build_dest_path source dest dest_is_dir o.parents)) ∧
    (∀ srcP dstP, pathStartsWith dstP srcP = true → dstP ≠ srcP →
      copy_directory_entry srcP dstP o =
        Except.error (CpError.copyIntoSelf srcP dstP)) := by
  constructor
  · simp [copy_source, hm, hdir, hrec, hcs, hcd, hpre]
  · intro srcP dstP h hne
    unfold copy_directory_entry
    simp [h, hne]

/-- Witness for C2 at a concrete input: copying `/home/src` into itself
(destination directory `/home/src`, so the target is `/home/src/src`) with
an identity canonicalizer. -/
theorem C2_copy_into_self_witness :
    copy_source
      { srcMetaF := some { ftype := FType.directory, size := 0, mtime := Option.none },
        srcMetaL := some { ftype := FType.directory, size := 0, mtime := Option.none },
        canon := fun p => some p }
      pSrc pSrc true { defaultOpts with recursive := true } =
      SourceOutcome.failed (CpError.copyIntoSelf pSrc
        (build_dest_path pSrc pSrc true false)) := by
  have h := C2_copy_into_self
    { srcMetaF := some { ftype := FType.directory, size := 0, mtime := Option.none },
      srcMetaL := some { ftype := FType.directory, size := 0, mtime := Option.none },
      canon := fun p => some p }
    pSrc pSrc true { defaultOpts with recursive := true }
    { ftype := FType.directory, size := 0, mtime := Option.none }
    pSrc (build_dest_path pSrc pSrc true false)
    (by decide) (by decide) (by decide) (by decide) (by decide) (by decide)
  exact h.1

/-! ## C4 — fast-path data-transfer errors are swallowed -/

/-- C4: `copy_and_close` loops `copy_file_range` and exits on any return
value ≤ 0 without distinguishing an error from EOF: (1) it returns success
for every return sequence; (2) everything after the first non-positive
return is never transferred, and (3) a non-positive return contributes the
same as EOF no matter its value — so a mid-transfer failure leaves the
destination silently truncated; (4) with an immediate error the destination
stays empty; (5) the transferred bytes are exactly the positive prefix sum. -/
theorem C4_fast_path_error_swallowed :
    (∀ rets need hasStat o,
      (copy_and_close rets need hasStat o).1 = Except.ok ()) ∧
    (∀ pre r post, r ≤ 0 →
      cfr_loop_bytes (pre ++ r :: post) = cfr_loop_bytes (pre ++ [r])) ∧
    (∀ pre r r2 post, r ≤ 0 → r2 ≤ 0 →
      cfr_loop_bytes (pre ++ r :: post) = cfr_loop_bytes (pre ++ r2 :: post)) ∧
    (∀ r post, r ≤ 0 → cfr_loop_bytes (r :: post) = 0) ∧
    (∀ rets need hasStat o,
      (copy_and_close rets need hasStat o).2.1 = cfr_loop_bytes rets) := by
  have hbase : ∀ (pre : List Int) (r : Int) (post post2 : List Int), r ≤ 0 →
      cfr_loop_bytes (pre ++ r :: post) = cfr_loop_bytes (pre ++ r :: post2) := by
    intro pre r post post2 hr
    induction pre with
    | nil => simp [cfr_loop_bytes, hr]
    | cons p rest ih =>
      by_cases hp : p ≤ 0
      · simp [cfr_loop_bytes, hp]
      · simp [cfr_loop_bytes, hp, ih]
  refine ⟨fun _ _ _ _ => rfl, ?_, ?_, ?_, fun _ _ _ _ => rfl⟩
  · intro pre r post hr
    exact hbase pre r post [] hr
  · intro pre r r2 post hr hr2
    induction pre with
    | nil => simp [cfr_loop_bytes, hr, hr2]
    | cons p rest ih =>
      by_cases hp : p ≤ 0
      · simp [cfr_loop_bytes, hp]
      · simp [cfr_loop_bytes, hp, ih]
  · intro r post hr
    simp [cfr_loop_bytes, hr]

/-- Witness for C4: a transfer of 8192 bytes whose `copy_file_range` fails
with -1 after 4096 bytes still reports success, and the destination holds
only 4096 bytes. -/
theorem C4_fast_path_error_swallowed_witness :
    (copy_and_close [(4096 : Int), -1, 4096] false false defaultOpts).1 =
      Except.ok () ∧
    cfr_loop_bytes [(4096 : Int), -1, 4096] = cfr_loop_bytes [(4096 : Int), -1] ∧
    cfr_loop_bytes [(-1 : Int), 4096] = 0 ∧
    (copy_and_close [(4096 : Int), -1, 4096] false false defaultOpts).2.1 = 4096 := by
  have h := C4_fast_path_error_swallowed
  refine ⟨h.1 [(4096 : Int), -1, 4096] false false defaultOpts, ?_, ?_, by decide⟩
  · exact h.2.1 [(4096 : Int)] (-1) [4096] (by decide)
  · exact h.2.2.2.1 (-1) [4096] (by decide)

/-! ## C5 — engine reflink gate -/

/-- Steps 2-4 never attempt the clone ioctl. -/
theorem clone_not_in_cascadeFrom2 (env : EngineEnv) (size : Nat)
    (srcP dstP : FsPath) :
    EngineStep.clone ∉ (cascadeFrom2 env size srcP dstP).1 := by
  unfold cascadeFrom2
  cases htc : try_copy_file_range size env.cfrRets 0 with
  | none =>
    cases hdw : do_read_write srcP dstP env.readRets env.writeOks <;>
      by_cases hsf : try_sendfile env.sendRets size <;> simp [hsf, hdw]
  | some copied =>
    by_cases h1 : copied = size
    · simp [h1]
    · by_cases h2 : 0 < copied
      · by_cases h3 : try_sendfile env.sendRets (size - copied) <;>
          cases hdw : do_read_write srcP dstP env.readRets env.writeOks <;>
          simp [h1, h2, h3, hdw]
      · cases hdw : do_read_write srcP dstP env.readRets env.writeOks <;>
          by_cases hsf : try_sendfile env.sendRets size <;>
          simp [h1, h2, hsf, hdw]

/-- C5: `copy_file_data` attempts the file-clone ioctl exactly when
`reflink = Always`, or `reflink = Auto` and the source length is at least
262144 bytes; on clone success it returns the reflink tag; on clone failure
with Always it returns a non-recoverable Copy error without attempting any
later cascade step; on clone failure with Auto it falls through silently to
the step-2..4 cascade (and with Never, or Auto below the threshold, the
cascade runs with no clone attempt at all). -/
theorem C5_reflink_gate (env : EngineEnv) (size : Nat) (srcP dstP : FsPath)
    (mode : ReflinkMode) :
    ((EngineStep.clone ∈ (copy_file_data env size srcP dstP mode).1) ↔
      (mode = ReflinkMode.always ∨
        (mode = ReflinkMode.auto ∧ FICLONE_THRESHOLD ≤ size))) ∧
    ((mode = ReflinkMode.always ∨
        (mode = ReflinkMode.auto ∧ FICLONE_THRESHOLD ≤ size)) →
      env.ficloneOk = true →
      copy_file_data env size srcP dstP mode =
        ([EngineStep.clone], Except.ok MethodTag.reflink)) ∧
    (mode = ReflinkMode.always → env.ficloneOk = false →
      copy_file_data env size srcP dstP mode =
        ([EngineStep.clone],
         Except.error (CpError.copyErr srcP dstP
           "failed to clone: Operation not supported"))) ∧
    (mode = ReflinkMode.auto → FICLONE_THRESHOLD ≤ size →
      env.ficloneOk = false →
      copy_file_data env size srcP dstP mode =
        (EngineStep.clone :: (cascadeFrom2 env size srcP dstP).1,
         (cascadeFrom2 env size srcP dstP).2)) ∧
    ((mode = ReflinkMode.never ∨
        (mode = ReflinkMode.auto ∧ size < FICLONE_THRESHOLD)) →
      copy_file_data env size srcP dstP mode = cascadeFrom2 env size srcP dstP) := by
  have hnc := clone_not_in_cascadeFrom2 env size srcP dstP
  cases mode with
  | never =>
    refine ⟨?_, ?_, ?_, ?_, ?_⟩ <;> simp [copy_file_data, hnc]
  | always =>
    cases hf : env.ficloneOk <;>
      refine ⟨?_, ?_, ?_, ?_, ?_⟩ <;> simp [copy_file_data, hf]
  | auto =>
    by_cases hs : FICLONE_THRESHOLD ≤ size
    · cases hf : env.ficloneOk <;>
        refine ⟨?_, ?_, ?_, ?_, ?_⟩ <;>
        simp [copy_file_data, hf, hs, Nat.not_lt.mpr hs]
    · refine ⟨?_, ?_, ?_, ?_, ?_⟩ <;>
        simp [copy_file_data, hs, hnc, Nat.lt_of_not_le hs]

/-- Witness for C5: a 300000-byte source under `reflink = Auto` with a
failing clone falls through to the cascade, and under `reflink = Always`
with a failing clone raises the Copy error with no later step attempted. -/
theorem C5_reflink_gate_witness :
    copy_file_data { defaultEngineEnv with ficloneOk := false } 300000
        pSrc pDst ReflinkMode.auto =
      (EngineStep.clone ::
        (cascadeFrom2 { defaultEngineEnv with ficloneOk := false } 300000 pSrc pDst).1,
       (cascadeFrom2 { defaultEngineEnv with ficloneOk := false } 300000 pSrc pDst).2) ∧
    copy_file_data { defaultEngineEnv with ficloneOk := false } 300000
        pSrc pDst ReflinkMode.always =
      ([EngineStep.clone],
       Except.error (CpError.copyErr pSrc pDst
         "failed to clone: Operation not supported")) := by
  constructor
  · exact (C5_reflink_gate { defaultEngineEnv with ficloneOk := false } 300000
      pSrc pDst ReflinkMode.auto).2.2.2.1 rfl (by decide) rfl
  · exact (C5_reflink_gate { defaultEngineEnv with ficloneOk := false } 300000
      pSrc pDst ReflinkMode.always).2.2.1 rfl rfl

/-! ## C9 — metadata pipeline order -/

/-- The executed stages of a pipeline are a sublist of its stage list. -/
theorem runPipeline_sublist (l : List (Bool × MStage × Option CpError)) :
    List.Sublist (runPipeline l).1 (l.map (fun x => x.2.1)) := by
  induction l with
  | nil => simp [runPipeline]
  | cons x rest ih =>
    obtain ⟨g, st, r⟩ := x
    by_cases hg : g
    · cases r with
      | none =>
        rcases h : runPipeline rest with ⟨tr, res⟩
        rw [h] at ih
        simpa [runPipeline, hg, h] using ih.cons₂ st
      | some e =>
        simp [runPipeline, hg]
    · simpa [runPipeline, hg] using (ih.cons st)

/-- A succeeding stage contributes its (gated) stage and continues. -/
theorem runPipeline_ok_cons (g : Bool) (st : MStage)
    (rest : List (Bool × MStage × Option CpError)) :
    runPipeline ((g, st, Option.none) :: rest) =
      ((if g then [st] else []) ++ (runPipeline rest).1, (runPipeline rest).2) := by
  rcases h : runPipeline rest with ⟨tr, res⟩
  by_cases hg : g <;> simp [runPipeline, hg, h]

/-- C9: `preserve_metadata` applies the requested attributes in the fixed
order xattr, ownership, mode, timestamps, ACL (with the saved-mode restore
after ACL): every execution trace is a sublist of that canonical order — so
no later stage ever runs before an earlier requested one — and when no stage
fails, the trace is exactly the pipeline filtered by the source's gates. -/
theorem C9_metadata_pipeline_order (env : MetaEnv) (o : CopyOptions)
    (is_symlink : Bool) :
    List.Sublist (preserve_metadata env o is_symlink).1
      [MStage.xattrs, MStage.ownership, MStage.modeStage,
       MStage.timestampsStage, MStage.acl, MStage.modeRestore] ∧
    (env.xattrRes = Option.none → env.chownRes = Option.none →
     env.chmodRes = Option.none → env.timeRes = Option.none →
     env.aclRes = Option.none →
     (preserve_metadata env o is_symlink).1 =
       (if o.preserve_xattr && env.xattrSupported then [MStage.xattrs] else []) ++
       (if o.preserve_ownership && env.isRoot then [MStage.ownership] else []) ++
       (if o.preserve_mode && !is_symlink then [MStage.modeStage] else []) ++
       (if o.preserve_timestamps then [MStage.timestampsStage] else []) ++
       (if o.preserve_acl && env.aclSupported then [MStage.acl] else []) ++
       (if o.preserve_acl && env.aclSupported && !o.preserve_mode && !is_symlink
          && env.savedMode.isSome then [MStage.modeRestore] else [])) := by
  constructor
  · simpa [preserve_metadata] using
      runPipeline_sublist
        [ (o.preserve_xattr && env.xattrSupported, MStage.xattrs, env.xattrRes),
          (o.preserve_ownership && env.isRoot, MStage.ownership, env.chownRes),
          (o.preserve_mode && !is_symlink, MStage.modeStage, env.chmodRes),
          (o.preserve_timestamps, MStage.timestampsStage, env.timeRes),
          (o.preserve_acl && env.aclSupported, MStage.acl, env.aclRes),
          (o.preserve_acl && env.aclSupported && !o.preserve_mode && !is_symlink
             && env.savedMode.isSome, MStage.modeRestore, Option.none) ]
  · intro h1 h2 h3 h4 h5
    rw [preserve_metadata, h1, h2, h3, h4, h5]
    rw [runPipeline_ok_cons, runPipeline_ok_cons, runPipeline_ok_cons,
        runPipeline_ok_cons, runPipeline_ok_cons, runPipeline_ok_cons]
    simp [runPipeline, List.append_assoc]

/-- Witness for C9 at a concrete input: an archive-style invocation as root
(all six preservation flags on) runs the stages in exactly the canonical
order. -/
theorem C9_metadata_pipeline_order_witness :
    (preserve_metadata { defaultMetaEnv with isRoot := true }
        { defaultOpts with
          preserve_mode := true
          preserve_ownership := true
          preserve_timestamps := true
          preserve_xattr := true
          preserve_acl := true } false).1 =
      [MStage.xattrs, MStage.ownership, MStage.modeStage,
       MStage.timestampsStage, MStage.acl] := by
  have h := (C9_metadata_pipeline_order { defaultMetaEnv with isRoot := true }
    { defaultOpts with
      preserve_mode := true
      preserve_ownership := true
      preserve_timestamps := true
      preserve_xattr := true
      preserve_acl := true } false).2 rfl rfl rfl rfl rfl
  rw [h]
  decide

/-! ## C7 — sparse threshold and zero-byte files -/

/-- C7: in the regular-file path (link modes and attributes-only unset, with
the source and destination opens succeeding), the sparse subsystem is
invoked exactly when the sparse mode is not Never and the source size is at
least `SPARSE_THRESHOLD` = 32768 bytes; a zero-byte source skips both the
sparse path and the engine cascade entirely — the run is exactly the
metadata propagation. -/
theorem C7_sparse_gate (env : RegEnv) (m : Meta) (o : CopyOptions)
    (srcP dstP : FsPath)
    (hh : o.hard_link = false) (hs : o.symbolic_link = false)
    (ha : o.attributes_only = false)
    (ho : env.openSrcOk = true) (hc : env.createDstOk = true) :
    ((Ev.sparseCall ∈ (copy_regular_file env m o srcP dstP).1) ↔
      (o.sparse ≠ SparseMode.never ∧ SPARSE_THRESHOLD ≤ m.size)) ∧
    (m.size = 0 →
      copy_regular_file env m o srcP dstP =
        ([Ev.preserveMeta], (preserve_metadata env.meta o false).2)) := by
  constructor
  · by_cases hnev : o.sparse = SparseMode.never
    · by_cases hz : 0 < m.size
      · cases he : (copy_file_data env.eng m.size srcP dstP o.reflink).2 <;>
          simp [copy_regular_file, hh, hs, ha, ho, hc, open_dest_create,
            hnev, hz, he]
      · simp [copy_regular_file, hh, hs, ha, ho, hc, open_dest_create, hnev, hz]
    · by_cases hsz : SPARSE_THRESHOLD ≤ m.size
      · have hz : 0 < m.size := lt_of_lt_of_le (by decide) hsz
        cases hsp : copy_sparse env.sp m.size srcP dstP o.sparse with
        | error e =>
          simp [copy_regular_file, hh, hs, ha, ho, hc, open_dest_create,
            hnev, hsz, hz, hsp]
        | ok pr =>
          obtain ⟨b, evs⟩ := pr
          cases b
          · cases ho2 : env.openSrcOk2
            · simp [copy_regular_file, hh, hs, ha, ho, hc, open_dest_create,
                hnev, hsz, hz, hsp, ho2]
            · cases he : (copy_file_data env.eng m.size srcP dstP o.reflink).2 <;>
                simp [copy_regular_file, hh, hs, ha, ho, hc, open_dest_create,
                  hnev, hsz, hz, hsp, ho2, he] <;>
                split <;> simp
          · simp [copy_regular_file, hh, hs, ha, ho, hc, open_dest_create,
              hnev, hsz, hz, hsp]
      · by_cases hz : 0 < m.size
        · cases he : (copy_file_data env.eng m.size srcP dstP o.reflink).2 <;>
            simp [copy_regular_file, hh, hs, ha, ho, hc, open_dest_create,
              hnev, hsz, hz, he]
        · simp [copy_regular_file, hh, hs, ha, ho, hc, open_dest_create,
            hnev, hsz, hz]
  · intro hz
    simp [copy_regular_file, hh, hs, ha, ho, hc, open_dest_create, hz]

/-- Witness for C7 at the boundary: a source of exactly 32768 bytes under
`--sparse=auto` does invoke the sparse subsystem, and a zero-byte source
runs only the metadata propagation. -/
theorem C7_sparse_gate_witness :
    Ev.sparseCall ∈
      (copy_regular_file defaultRegEnv
        { ftype := FType.regular, size := 32768, mtime := some 1 }
        defaultOpts pSrc pDst).1 ∧
    copy_regular_file defaultRegEnv
        { ftype := FType.regular, size := 0, mtime := some 1 }
        defaultOpts pSrc pDst =
      ([Ev.preserveMeta], (preserve_metadata defaultRegEnv.meta defaultOpts false).2) := by
  constructor
  · exact ((C7_sparse_gate defaultRegEnv
      { ftype := FType.regular, size := 32768, mtime := some 1 }
      defaultOpts pSrc pDst (by decide) (by decide) (by decide) rfl rfl).1).mpr
      (by constructor <;> decide)
  · exact (C7_sparse_gate defaultRegEnv
      { ftype := FType.regular, size := 0, mtime := some 1 }
      defaultOpts pSrc pDst (by decide) (by decide) (by decide) rfl rfl).2 rfl

/-! ## C3 — hard-link ledger -/

/-- The keys currently present in the ledger. -/
def ledgerKeys (m : Ledger) : List (Nat × Nat) := m.map Prod.fst

/-- An encounter is governed by the ledger logic for key `k` when it carries
that key and its link count exceeds 1. -/
def qual (k : Nat × Nat) (e : Encounter) : Bool :=
  decide (keyOf e = k) && decide (1 < e.nlink)

/-- A real data copy, as opposed to a hard link. -/
def isDataCopy : LinkAction → Bool
  | LinkAction.dataCopy _ => true
  | LinkAction.hardLinkTo _ _ => false

theorem lookupKey_eq_none_iff (k : Nat × Nat) (m : Ledger) :
    lookupKey k m = Option.none ↔ k ∉ ledgerKeys m := by
  induction m with
  | nil => simp [lookupKey, ledgerKeys]
  | cons x rest ih =>
    obtain ⟨k2, p⟩ := x
    by_cases h : k2 = k
    · subst h
      simp [lookupKey, ledgerKeys]
    · have hk : ledgerKeys ((k2, p) :: rest) = k2 :: ledgerKeys rest := rfl
      rw [hk]
      simp only [lookupKey, if_neg h]
      rw [ih]
      simp [List.mem_cons, Ne.symm h]

/-- One ledger step never duplicates a key: the lookup precedes the insert,
and insertion happens only on a miss. -/
theorem ledgerStep_nodup (m : Ledger) (e : Encounter)
    (h : (ledgerKeys m).Nodup) : (ledgerKeys (ledgerStep m e).1).Nodup := by
  unfold ledgerStep
  by_cases hn : 1 < e.nlink
  · cases hl : lookupKey (keyOf e) m with
    | none =>
      simp only [hn, if_true, hl]
      exact List.Nodup.cons ((lookupKey_eq_none_iff _ _).mp hl) h
    | some p => simpa [hn, hl]
  · simpa [hn]

theorem runLedger_fst_cons (m : Ledger) (e : Encounter) (rest : List Encounter) :
    (runLedger m (e :: rest)).1 = (runLedger (ledgerStep m e).1 rest).1 := by
  rcases h : ledgerStep m e with ⟨m1, a⟩
  rcases h2 : runLedger m1 rest with ⟨m2, acts⟩
  simp [runLedger, h, h2]

theorem runLedger_nodup (es : List Encounter) :
    ∀ m : Ledger, (ledgerKeys m).Nodup → (ledgerKeys (runLedger m es).1).Nodup := by
  induction es with
  | nil => intro m h; simpa [runLedger]
  | cons e rest ih =>
    intro m h
    rw [runLedger_fst_cons]
    exact ih _ (ledgerStep_nodup m e h)

theorem annotate_cons (m : Ledger) (e : Encounter) (rest : List Encounter) :
    annotate m (e :: rest) =
      (e, (ledgerStep m e).2) :: annotate (ledgerStep m e).1 rest := by
  rcases h : ledgerStep m e with ⟨m1, a⟩
  rcases h2 : runLedger m1 rest with ⟨m2, acts⟩
  simp [annotate, runLedger, h, h2]

/-- A qualifying encounter under a ledger hit becomes a hard link and leaves
the ledger unchanged. -/
theorem ledgerStep_hit (m : Ledger) (e : Encounter) (p : FsPath)
    (hn : 1 < e.nlink) (hl : lookupKey (keyOf e) m = some p) :
    ledgerStep m e = (m, LinkAction.hardLinkTo p e.dst) := by
  simp [ledgerStep, hn, hl]

/-- A non-qualifying step for key `k` cannot change what `k` maps to. -/
theorem ledgerStep_lookup_other (m : Ledger) (e : Encounter) (k : Nat × Nat)
    (hq : qual k e = false) :
    lookupKey k (ledgerStep m e).1 = lookupKey k m := by
  unfold ledgerStep
  by_cases hn : 1 < e.nlink
  · cases hl : lookupKey (keyOf e) m with
    | none =>
      have hne : keyOf e ≠ k := by
        intro hcontra
        simp [qual, hcontra, hn] at hq
      simp [hn, hl, lookupKey, hne]
    | some p => simp [hn, hl]
  · simp [hn]

/-- After the first writer has claimed `k`, every later qualifying encounter
for `k` becomes a hard link to the first destination. -/
theorem runLedger_hit (k : Nat × Nat) (p : FsPath) :
    ∀ (es : List Encounter) (m : Ledger), lookupKey k m = some p →
      (annotate m es).filter (fun pr => qual k pr.1) =
        (es.filter (qual k)).map
          (fun e => (e, LinkAction.hardLinkTo p e.dst)) := by
  intro es
  induction es with
  | nil => intro m _; simp [annotate, runLedger]
  | cons e rest ih =>
    intro m hm
    rw [annotate_cons]
    by_cases hq : qual k e = true
    · have hk : keyOf e = k := by
        have := hq
        simp [qual] at this
        exact this.1
      have hn : 1 < e.nlink := by
        have := hq
        simp [qual] at this
        exact this.2
      have hstep := ledgerStep_hit m e p hn (hk ▸ hm)
      rw [hstep]
      simp only [List.filter_cons, hq, List.filter, if_pos]
      simp [hq, ih m hm]
    · have hq2 : qual k e = false := by simpa using hq
      have hl : lookupKey k (ledgerStep m e).1 = some p := by
        rw [ledgerStep_lookup_other m e k hq2]; exact hm
      simp [List.filter_cons, hq2, ih _ hl]

/-- Starting from a ledger without `k`: the first qualifying encounter gets
the data copy at its own destination and all later qualifying encounters
hard-link to it. -/
theorem runLedger_miss (k : Nat × Nat) :
    ∀ (es : List Encounter) (m : Ledger), lookupKey k m = Option.none →
      (es.filter (qual k) = [] →
        (annotate m es).filter (fun pr => qual k pr.1) = []) ∧
      (∀ e0 rest2, es.filter (qual k) = e0 :: rest2 →
        (annotate m es).filter (fun pr => qual k pr.1) =
          (e0, LinkAction.dataCopy e0.dst) ::
            rest2.map (fun e => (e, LinkAction.hardLinkTo e0.dst e.dst))) := by
  intro es
  induction es with
  | nil =>
    intro m _
    constructor
    · intro _; simp [annotate, runLedger]
    · intro e0 rest2 h; simp at h
  | cons e rest ih =>
    intro m hm
    by_cases hq : qual k e = true
    · have hk : keyOf e = k := by
        have := hq
        simp [qual] at this
        exact this.1
      have hn : 1 < e.nlink := by
        have := hq
        simp [qual] at this
        exact this.2
      have hstep : ledgerStep m e = ((keyOf e, e.dst) :: m, LinkAction.dataCopy e.dst) := by
        simp [ledgerStep, hn, hk ▸ hm]
      have hl : lookupKey k (ledgerStep m e).1 = some e.dst := by
        rw [hstep]
        simp [lookupKey, hk]
      constructor
      · intro hnil
        rw [List.filter_cons_of_pos hq] at hnil
        exact absurd hnil (by simp)
      · intro e0 rest2 hcons
        rw [List.filter_cons_of_pos hq] at hcons
        injection hcons with h1 h2
        rw [annotate_cons, hstep]
        simp only [List.filter_cons, hq, if_pos]
        rw [← h1, ← h2]
        have hl2 : lookupKey k ((keyOf e, e.dst) :: m) = some e.dst := by
          simp [lookupKey, hk]
        simp [hq, runLedger_hit k e.dst rest _ hl2]
    · have hq2 : qual k e = false := by simpa using hq
      have hl : lookupKey k (ledgerStep m e).1 = Option.none := by
        rw [ledgerStep_lookup_other m e k hq2]; exact hm
      have hrest := ih _ hl
      constructor
      · intro hnil
        rw [List.filter_cons_of_neg (by simp [hq2])] at hnil
        rw [annotate_cons]
        simp only [List.filter_cons, hq2]
        simpa [hq2] using hrest.1 hnil
      · intro e0 rest2 hcons
        rw [List.filter_cons_of_neg (by simp [hq2])] at hcons
        rw [annotate_cons]
        simpa [hq2] using hrest.2 e0 rest2 hcons

/-- C3: during a recursive copy with preserve_links, for every source inode
with link count > 1 met at least once: the ledger (whose lookups precede its
insertions) ends with no duplicate key; the first qualifying encounter gets
the one real data copy, at its own destination; every later qualifying
encounter becomes a hard link to that first destination (immediately in the
single-threaded walker, through the deferred-link list in the parallel
walker); exactly one qualifying encounter is a data copy; and the deferred
pairs are exactly (first destination, later destination). -/
theorem C3_hardlink_dedup (es : List Encounter) (k : Nat × Nat) :
    (ledgerKeys (runLedger [] es).1).Nodup ∧
    (∀ e0 rest2, es.filter (qual k) = e0 :: rest2 →
      (annotate [] es).filter (fun pr => qual k pr.1) =
        (e0, LinkAction.dataCopy e0.dst) ::
          rest2.map (fun e => (e, LinkAction.hardLinkTo e0.dst e.dst))) ∧
    (∀ e0 rest2, es.filter (qual k) = e0 :: rest2 →
      ((annotate [] es).filter (fun pr => qual k pr.1)).countP
        (fun pr => isDataCopy pr.2) = 1) ∧
    (∀ e0 rest2, es.filter (qual k) = e0 :: rest2 →
      deferredOf
          (((annotate [] es).filter (fun pr => qual k pr.1)).map Prod.snd) =
        rest2.map (fun e => (e0.dst, e.dst))) := by
  have hmiss := runLedger_miss k es [] (by simp [lookupKey])
  refine ⟨runLedger_nodup es [] (by simp [ledgerKeys]), hmiss.2, ?_, ?_⟩
  · intro e0 rest2 hcons
    rw [hmiss.2 e0 rest2 hcons]
    simp [isDataCopy, List.countP_cons]
  · intro e0 rest2 hcons
    rw [hmiss.2 e0 rest2 hcons]
    simp [deferredOf]
    clear hcons
    induction rest2 with
    | nil => simp
    | cons x xs ih => simpa using ih

/-- Witness for C3: two encounters of the same (device 1, inode 7) with link
count 2 — the first places the data copy at its destination, the second
becomes a hard link to it; the final ledger holds one entry. -/
theorem C3_hardlink_dedup_witness :
    (annotate []
        [{ dev := 1, ino := 7, nlink := 2, dst := pDst },
         { dev := 1, ino := 7, nlink := 2, dst := pBak }]).filter
        (fun pr => qual (1, 7) pr.1) =
      [({ dev := 1, ino := 7, nlink := 2, dst := pDst }, LinkAction.dataCopy pDst),
       ({ dev := 1, ino := 7, nlink := 2, dst := pBak },
        LinkAction.hardLinkTo pDst pBak)] := by
  have h := (C3_hardlink_dedup
    [{ dev := 1, ino := 7, nlink := 2, dst := pDst },
     { dev := 1, ino := 7, nlink := 2, dst := pBak }] (1, 7)).2.1
    { dev := 1, ino := 7, nlink := 2, dst := pDst }
    [{ dev := 1, ino := 7, nlink := 2, dst := pBak }] (by decide)
  rw [h]
  decide

/-! ## C6 — sparse Auto mode -/

/-- Fuel-bounded worker for `chunkSizes` (structural, so the kernel can
evaluate it). -/
def chunkSizesAux : Nat → Nat → List Nat
  | 0, _ => []
  | fuel + 1, len =>
    if 0 < len then min len BUF_SIZE :: chunkSizesAux fuel (len - min len BUF_SIZE)
    else []

/-- The read sizes of an honest read loop over `len` bytes: each read
returns exactly the requested `min remaining BUF_SIZE` bytes. -/
def chunkSizes (len : Nat) : List Nat := chunkSizesAux len len

theorem chunkSizesAux_adequate :
    ∀ fuel1 fuel2 len, len ≤ fuel1 → len ≤ fuel2 →
      chunkSizesAux fuel1 len = chunkSizesAux fuel2 len := by
  intro fuel1
  induction fuel1 with
  | zero =>
    intro fuel2 len h1 _
    have : len = 0 := Nat.le_zero.mp h1
    subst this
    cases fuel2 <;> simp [chunkSizesAux]
  | succ f1 ih =>
    intro fuel2 len h1 h2
    rcases len with _ | l
    · cases fuel2 <;> simp [chunkSizesAux]
    · have hpos : 0 < l + 1 := Nat.succ_pos l
      have hk : 0 < min (l + 1) BUF_SIZE := lt_min_iff.mpr ⟨hpos, by decide⟩
      rcases fuel2 with _ | f2
      · exact absurd h2 (by omega)
      · simp only [chunkSizesAux, hpos, if_true]
        have hrec := ih f2 (l + 1 - min (l + 1) BUF_SIZE) (by omega) (by omega)
        rw [hrec]

/-- Unfolding `chunkSizes` on a positive length. -/
theorem chunkSizes_pos (L : Nat) (h : 0 < L) :
    chunkSizes L = min L BUF_SIZE :: chunkSizes (L - min L BUF_SIZE) := by
  rcases L with _ | l
  · exact absurd h (by omega)
  · have hk : 0 < min (l + 1) BUF_SIZE := lt_min_iff.mpr ⟨h, by decide⟩
    show chunkSizesAux (l + 1) (l + 1) = _
    simp only [chunkSizesAux, h, if_true]
    rw [chunkSizesAux_adequate l (l + 1 - min (l + 1) BUF_SIZE)
      (l + 1 - min (l + 1) BUF_SIZE) (by omega) (by omega)]
    rfl

theorem chunkSizes_zero : chunkSizes 0 = [] := rfl

/-- The write/progress events of one fully-read region of `len` bytes. -/
def chunkEvs (len : Nat) : List SpEv :=
  (chunkSizes len).flatMap (fun k => [SpEv.writeChunk k, SpEv.progress k])

/-- Unfolding `chunkEvs` on a positive length. -/
theorem chunkEvs_pos (L : Nat) (h : 0 < L) :
    chunkEvs L = SpEv.writeChunk (min L BUF_SIZE) ::
      SpEv.progress (min L BUF_SIZE) :: chunkEvs (L - min L BUF_SIZE) := by
  unfold chunkEvs
  rw [chunkSizes_pos L h]
  simp

theorem chunkEvs_zero : chunkEvs 0 = [] := rfl

/-- The events of one region of the Auto sparse path: seek both descriptors
to the region offset, then the copy loop. -/
def regionTrace (r : DataRegion) : List SpEv :=
  SpEv.seekSrc r.offset :: SpEv.seekDst r.offset :: chunkEvs r.length

/-- A region loop fed with honest reads writes exactly the region length. -/
theorem regionLoop_full (srcP dstP : FsPath) (L : Nat) :
    regionLoop srcP dstP true ((chunkSizes L).map some) L =
      Except.ok (chunkEvs L, L) := by
  induction L using Nat.strong_induction_on with
  | _ L ih =>
    rcases L with _ | rem
    · rw [chunkSizes_zero, chunkEvs_zero]
      rfl
    · have h : 0 < rem + 1 := Nat.succ_pos rem
      have hk : 0 < min (rem + 1) BUF_SIZE := lt_min_iff.mpr ⟨h, by decide⟩
      have hkle : min (rem + 1) BUF_SIZE ≤ rem + 1 := min_le_left _ _
      rw [chunkSizes_pos _ h, chunkEvs_pos _ h]
      simp only [List.map_cons, regionLoop, min_self, Bool.not_true]
      rw [if_neg hk.ne']
      rw [if_neg (by decide : ¬ (false = true))]
      rw [ih (rem + 1 - min (rem + 1) BUF_SIZE) (Nat.sub_lt h hk)]
      simp [Nat.add_sub_cancel' hkle]

/-- Iterating the regions with honest reads produces exactly the per-region
traces and byte counts. -/
theorem copyAllRegions_full (srcP dstP : FsPath) (regions : List DataRegion) :
    copyAllRegions srcP dstP true regions
        (regions.map (fun r => (chunkSizes r.length).map some)) =
      Except.ok (regions.flatMap regionTrace, regions.map DataRegion.length) := by
  induction regions with
  | nil => simp [copyAllRegions]
  | cons r rs ih =>
    simp [copyAllRegions, copyOneRegion, regionLoop_full, ih, regionTrace]

/-- Counterexample to C6 as stated: a 32768-byte source that is entirely a
hole (the SEEK_DATA/SEEK_HOLE scan returns no data region, so the sum of
data-region lengths, 0, is less than the file length — the scan did find a
hole) still makes `copy_sparse` under Auto return `false` (the wildcard
match arm), falling back to a dense copy. -/
theorem C6_counterexample :
    copy_sparse defaultSparseEnv 32768 pSrc pDst SparseMode.auto =
      Except.ok (false, []) ∧
    dataBytes defaultSparseEnv.regions < 32768 := by
  constructor
  · rfl
  · decide

/-- C6 (amended): `copy_sparse` returns false for every call with mode
Never; with mode Auto it returns true exactly when the scan finds at least
one data region AND at least one hole (nonempty region list whose lengths
sum below the file length) — in which case it pre-extends the destination to
the full length, copies each data region at its offset, and counts the hole
bytes as progress without writing; with an empty scan (fully-hole file) or a
hole-free scan it returns false. -/
theorem C6_sparse_auto (env : SparseEnv) (size : Nat) (srcP dstP : FsPath) :
    (copy_sparse env size srcP dstP SparseMode.never = Except.ok (false, [])) ∧
    (env.regions = [] →
      copy_sparse env size srcP dstP SparseMode.auto = Except.ok (false, [])) ∧
    (env.regions ≠ [] → size ≤ dataBytes env.regions →
      copy_sparse env size srcP dstP SparseMode.auto = Except.ok (false, [])) ∧
    (env.regions ≠ [] → dataBytes env.regions < size →
      env.setLenOk = true → env.writeOk = true →
      env.regionReads = env.regions.map (fun r => (chunkSizes r.length).map some) →
      copy_sparse env size srcP dstP SparseMode.auto =
        Except.ok (true, SpEv.setLen size ::
          (env.regions.flatMap regionTrace ++
            [SpEv.progress (size - dataBytes env.regions)]))) := by
  refine ⟨rfl, ?_, ?_, ?_⟩
  · intro h
    simp [copy_sparse, h]
  · intro hne hge
    rcases hr : env.regions with _ | ⟨r, rs⟩
    · exact absurd hr hne
    · rw [hr] at hge
      simp [copy_sparse, hr, hge]
  · intro hne hlt hsl hw hreads
    rcases hr : env.regions with _ | ⟨r, rs⟩
    · exact absurd hr hne
    · rw [hr] at hlt hreads
      have hfull := copyAllRegions_full srcP dstP (r :: rs)
      simp only [List.map_cons] at hfull
      simp [copy_sparse, hr, Nat.not_le.mpr hlt, hsl, hw, hreads, hfull, hlt]

/-- Witness for C6 (amended): a 100000-byte file with one 4096-byte data
region at offset 50000 is copied sparsely — destination pre-extended, one
region copied at its offset, 95904 hole bytes counted as progress. -/
theorem C6_sparse_auto_witness :
    copy_sparse
        { defaultSparseEnv with
          regions := [{ offset := 50000, length := 4096 }]
          regionReads := [[some 4096]] } 100000 pSrc pDst SparseMode.auto =
      Except.ok (true,
        [SpEv.setLen 100000, SpEv.seekSrc 50000, SpEv.seekDst 50000,
         SpEv.writeChunk 4096, SpEv.progress 4096, SpEv.progress 95904]) := by
  have h := (C6_sparse_auto
    { defaultSparseEnv with
      regions := [{ offset := 50000, length := 4096 }]
      regionReads := [[some 4096]] } 100000 pSrc pDst).2.2.2
    (by decide) (by decide) rfl rfl (by decide)
  rw [h]
  rfl

/-! ## C8 — update modes -/

/-- The file-type dispatch never reads the `update` field, so changing it
leaves the dispatch unchanged (all downstream consumers project other
fields). -/
theorem dispatchUpdateInv (env : SingleEnv) (o : CopyOptions)
    (u : Option UpdateMode) (m : Meta) (follow : Bool) (srcP dstP : FsPath) :
    dispatchByType env { o with update := u } m follow srcP dstP =
      dispatchByType env o m follow srcP dstP := rfl

/-- C8: when `update` is set and the destination exists (and the earlier
dangling-symlink and same-file gates pass), `copy_single` skips — returns
success having done nothing — for modes None and NoneFail; for mode Older it
skips exactly when the destination mtime is at least the source mtime; for
mode All it behaves exactly as if `update` were unset (always proceeds). -/
theorem C8_update_modes
    (env : SingleEnv) (o : CopyOptions) (srcP dstP : FsPath) (arg : Bool)
    (m : Meta) (dm : DstMeta)
    (hmeta : (if should_follow_symlink o.dereference arg then env.srcMetaF
              else env.srcMetaL) = some m)
    (hdm : env.dstMeta = some dm)
    (hdangle : (dm.is_symlink && !env.dstExistsFollow && !o.force
                 && !o.remove_destination) = false)
    (hsame : env.sameFile = false) :
    (o.update = some UpdateMode.none →
      copy_single env o srcP dstP arg = ([], Option.none)) ∧
    (o.update = some UpdateMode.noneFail →
      copy_single env o srcP dstP arg = ([], Option.none)) ∧
    (∀ d s, o.update = some UpdateMode.older → o.no_clobber = false →
      dm.mtime = some d → m.mtime = some s →
      (copy_single env o srcP dstP arg = ([], Option.none) ↔ s ≤ d)) ∧
    (o.update = some UpdateMode.all →
      copy_single env o srcP dstP arg =
        copy_single env { o with update := Option.none } srcP dstP arg) := by
  refine ⟨?_, ?_, ?_, ?_⟩
  · intro hu
    simp [copy_single, hmeta, hdm, hdangle, hsame, hu]
  · intro hu
    simp [copy_single, hmeta, hdm, hdangle, hsame, hu]
  · intro d s hu hnc hd hs
    by_cases hcmp : s ≤ d
    · simp [copy_single, hmeta, hdm, hdangle, hsame, hu, hd, hs, optTimeLe, hcmp]
    · by_cases hi : o.interactive = true
      · cases hp : env.promptYes
        · simp [copy_single, hmeta, hdm, hdangle, hsame, hu, hd, hs, optTimeLe,
            hcmp, hnc, hi, hp]
        · simp [copy_single, hmeta, hdm, hdangle, hsame, hu, hd, hs, optTimeLe,
            hcmp, hnc, hi, hp]
          split <;> simp
      · by_cases hrm : o.remove_destination = true
        · cases hro : env.removeDestOk <;>
            simp [copy_single, hmeta, hdm, hdangle, hsame, hu, hd, hs, optTimeLe,
              hcmp, hnc, hi, hrm, hro]
        · simp [copy_single, hmeta, hdm, hdangle, hsame, hu, hd, hs, optTimeLe,
            hcmp, hnc, hi, hrm]
          split <;> simp
  · intro hu
    simp [copy_single, hmeta, hdm, hdangle, hsame, hu, dispatchUpdateInv]

/-- Witness for C8: with `--update=older`, a destination (mtime 60) newer
than the source (mtime 50) makes `copy_single` return success without doing
anything. -/
theorem C8_update_modes_witness :
    copy_single
      { defaultSingleEnv with dstMeta := some { is_symlink := false, mtime := some 60 } }
      { defaultOpts with update := some UpdateMode.older } pSrc pDst true =
      ([], Option.none) := by
  have h := ((C8_update_modes
    { defaultSingleEnv with dstMeta := some { is_symlink := false, mtime := some 60 } }
    { defaultOpts with update := some UpdateMode.older } pSrc pDst true
    regMeta100 { is_symlink := false, mtime := some 60 }
    (by decide) rfl (by decide) rfl).2.2.1 60 50 rfl (by decide) rfl
    (by decide)).mpr (by decide)
  exact h

/-! ## C1 — no-clobber versus interactive -/

/-- The command line requesting both `-n` and `-i`. -/
def cliBoth : Cli := { defaultCli with no_clobber := true, interactive := true }

/-- Counterexample to C1 as stated: with both `no_clobber` and `interactive`
requested, `from_cli` (options.rs line 165: `cli.no_clobber &&
!cli.interactive`) clears `no_clobber` — the cli.rs doc for `-i` says
"overrides -n" — so with an existing destination `copy_single` PROMPTS
instead of silently skipping: the prompt event occurs, and with an accepting
answer the copy proceeds. -/
theorem C1_counterexample :
    (from_cli envNone cliBoth).no_clobber = false ∧
    (from_cli envNone cliBoth).interactive = true ∧
    (copy_single defaultSingleEnv (from_cli envNone cliBoth) pSrc pDst true).1 =
      [Ev.prompt, Ev.backupCall, Ev.engineCall, Ev.preserveMeta] := by
  refine ⟨by decide, by decide, ?_⟩
  rfl

/-- C1 (amended): if both `no_clobber` and `interactive` are requested on
the command line, `interactive` wins: `from_cli` clears `no_clobber`, and
for every `copy_single` invocation where the destination exists (and the
earlier gates pass, with `update` unset) the user IS prompted; a negative
answer then skips. -/
theorem C1_interactive_wins (envv : EnvVars) (cli : Cli)
    (hn : cli.no_clobber = true) (hi : cli.interactive = true)
    (hupd : cli.update = Option.none)
    (env : SingleEnv) (srcP dstP : FsPath) (dm : DstMeta) (m : Meta)
    (hdm : env.dstMeta = some dm)
    (hdangle : (dm.is_symlink && !env.dstExistsFollow && !cli.force
                 && !cli.remove_destination) = false)
    (hsame : env.sameFile = false)
    (hmeta : (if should_follow_symlink (from_cli envv cli).dereference true
              then env.srcMetaF else env.srcMetaL) = some m) :
    (from_cli envv cli).no_clobber = false ∧
    (from_cli envv cli).interactive = true ∧
    Ev.prompt ∈ (copy_single env (from_cli envv cli) srcP dstP true).1 ∧
    (env.promptYes = false →
      copy_single env (from_cli envv cli) srcP dstP true =
        ([Ev.prompt], Option.none)) := by
  have hnc : (from_cli envv cli).no_clobber = false := by
    show (cli.no_clobber && !cli.interactive) = false
    rw [hn, hi]
    rfl
  have hint : (from_cli envv cli).interactive = true := hi
  have hupd2 : (from_cli envv cli).update = Option.none := hupd
  have hforce : (from_cli envv cli).force = cli.force := rfl
  have hrd : (from_cli envv cli).remove_destination = cli.remove_destination := rfl
  refine ⟨hnc, hint, ?_, ?_⟩
  · cases hp : env.promptYes
    · simp [copy_single, hmeta, hdm, hsame, hupd2, hnc, hint, hp, hforce, hrd,
        hdangle]
    · simp [copy_single, hmeta, hdm, hsame, hupd2, hnc, hint, hp, hforce, hrd,
        hdangle]
      split <;> simp
  · intro hp
    simp [copy_single, hmeta, hdm, hsame, hupd2, hnc, hint, hp, hforce, hrd,
      hdangle]

/-- Witness for the amended C1: the concrete both-flags command line, an
existing destination, and a declining user — the run prompts and then
skips. -/
theorem C1_interactive_wins_witness :
    copy_single { defaultSingleEnv with promptYes := false }
        (from_cli envNone cliBoth) pSrc pDst true = ([Ev.prompt], Option.none) := by
  exact (C1_interactive_wins envNone cliBoth rfl rfl rfl
    { defaultSingleEnv with promptYes := false } pSrc pDst
    { is_symlink := false, mtime := some 40 } regMeta100
    rfl (by decide) rfl (by decide)).2.2.2 rfl

/-! ## C10 — backup failure is silent -/

/-- C10: a failure to create the requested backup is silent and does not
stop the copy: `make_backup` returns `None` whenever the rename of the
existing destination fails; `copy_single` discards `make_backup`'s return
value, so its outcome does not depend on the rename result at all; and the
operation proceeds into the regular-file copy (overwriting the destination)
with no backup-related error. -/
theorem C10_backup_failure_silent
    (env : SingleEnv) (o : CopyOptions) (srcP dstP : FsPath) (arg : Bool)
    (m : Meta) (dm : DstMeta)
    (hmeta : (if should_follow_symlink o.dereference arg then env.srcMetaF
              else env.srcMetaL) = some m)
    (hdm : env.dstMeta = some dm)
    (hdangle : (dm.is_symlink && !env.dstExistsFollow && !o.force
                 && !o.remove_destination) = false)
    (hsame : env.sameFile = false)
    (hupd : o.update = Option.none) (hnc : o.no_clobber = false)
    (hi : o.interactive = false) (hrd : o.remove_destination = false)
    (hm : m.ftype = FType.regular) (hsd : env.srcIsDirFollow = false) :
    (∀ bpath mode dexists, make_backup bpath mode dexists false = Option.none) ∧
    (∀ b1 b2, copy_single { env with renameOk := b1 } o srcP dstP arg =
      copy_single { env with renameOk := b2 } o srcP dstP arg) ∧
    (copy_single env o srcP dstP arg =
      (Ev.backupCall :: (copy_regular_file env.reg m o srcP dstP).1,
       (copy_regular_file env.reg m o srcP dstP).2)) := by
  refine ⟨?_, ?_, ?_⟩
  · intro bpath mode dexists
    cases mode <;> cases dexists <;> rfl
  · intro b1 b2
    rfl
  · simp [copy_single, hmeta, hdm, hdangle, hsame, hupd, hnc, hi, hrd,
      dispatchByType, hm, hsd]
    intro h1 h2
    rw [h1, h2, hrd] at hdangle
    simpa using hdangle

/-- Witness for C10: the destination exists, the backup rename fails
(`renameOk := false`) under `--backup=numbered`; `make_backup` yields no
backup path, yet the copy completes successfully, overwriting the
destination. -/
theorem C10_backup_failure_silent_witness :
    make_backup pBak BackupMode.numbered true false = Option.none ∧
    copy_single { defaultSingleEnv with renameOk := false }
        { defaultOpts with backup := BackupMode.numbered } pSrc pDst true =
      ([Ev.backupCall, Ev.engineCall, Ev.preserveMeta], Option.none) := by
  have h := C10_backup_failure_silent
    { defaultSingleEnv with renameOk := false }
    { defaultOpts with backup := BackupMode.numbered } pSrc pDst true
    regMeta100 { is_symlink := false, mtime := some 40 }
    (by decide) rfl (by decide) rfl rfl rfl rfl rfl rfl rfl
  refine ⟨h.1 pBak BackupMode.numbered true, ?_⟩
  rw [h.2.2]
  rfl

end Cp
